import Mathlib

/-!
Shallow embedding of `src/public/app.py` (IoT energy dashboard).

The dashboard is a Dash app whose single callback `update_dashboard(slider_range,
tab, n, live_on)` (lines 126-204) implements the reactive pipeline:
reload-or-reuse -> window filter -> KPI aggregation -> per-tab view composition.

Modelling conventions:
  * A CSV row becomes a `Reading`; the `Time` column is modelled by its derived
    epoch-seconds value (`unix`, line 37), an `Int`.  Numeric columns are `Rat`
    (exact arithmetic stands in for the float columns; every property checked
    here is about which cells are combined, not about rounding).
  * `Voltage_V` is `Option Rat`: `none` models a missing (NaN) cell, and
    pandas `Series.mean` skips NaN cells (skipna default), which `vmean`
    mirrors.
  * A pandas operation that raises (`.iloc[0]` / `.iloc[-1]` on an empty
    frame) is modelled by `Option`/`Except`: `none` or `Except.error` marks the
    exception escaping the callback.
  * The module-level `df = load_data()` (line 40) and the per-cycle
    `load_data()` result are passed explicitly; `load_data` itself only reads
    the external CSV, so its outcome for a cycle is a parameter
    `src : Except CycleError (List Reading)`.
-/

/-- One telemetry sample: a row of `fridge_enriched.csv` as used by the app.
`time` is the epoch-seconds value derived on load (line 37); the remaining
fields are the columns the callback touches: `ActivePower_kW`, `Energy_kWh`,
`Cost_cum_BDT`, `Voltage_V` (possibly missing), `Voltage_Deviation_%`,
`PowerFactor`, `DutyCycle_%_24H`, `dE_kWh`. -/
structure Reading where
  time : Int
  activePower : ℚ
  energy : ℚ
  cost : ℚ
  voltage : Option ℚ
  voltageDev : ℚ
  powerFactor : ℚ
  dutyCycle : ℚ
  dE : ℚ
  deriving DecidableEq

/-- Lines 115-117: `slice_by_slider(data, slider)` keeps the rows with
`t0 <= Time <= t1` (both endpoints inclusive), in their original order. -/
def slice_by_slider (data : List Reading) (t0 t1 : Int) : List Reading :=
  data.filter fun r => decide (t0 ≤ r.time) && decide (r.time ≤ t1)

/-- The four scalar KPIs of lines 131-134: `total_kwh`, `cost_bd`, `avg_volt`,
`duty_now`.  `avg_volt` is `Option` because a mean over zero present cells is
NaN in pandas. -/
structure KPISet where
  total_kwh : ℚ
  cost_bd : ℚ
  avg_volt : Option ℚ
  duty_now : ℚ
  deriving DecidableEq

/-- `dff["Voltage_V"].mean()` (line 133): arithmetic mean of the present
(non-NaN) voltage cells; NaN (here `none`) when no cell is present. -/
def vmean (dff : List Reading) : Option ℚ :=
  let vs := dff.filterMap Reading.voltage
  if vs = [] then none else some (vs.sum / (vs.length : ℚ))

/-- Lines 131-134, the KPI block.  `iloc[0]` is the head of the filtered
frame, `iloc[-1]` its last element; on an empty frame `.iloc` raises
IndexError, modelled by `none`. -/
def aggregate : List Reading → Option KPISet
  | [] => none
  | r :: rs =>
    let lastR := (r :: rs).getLast (List.cons_ne_nil r rs)
    some { total_kwh := lastR.energy - r.energy
         , cost_bd := lastR.cost - r.cost
         , avg_volt := vmean (r :: rs)
         , duty_now := lastR.dutyCycle }

/-- Line 195: `dff["Time"].dt.hour`, the hour-of-day of an epoch-seconds
instant.  Python `%` and `//` on a positive modulus agree with `Int.emod` /
`Int.ediv` here. -/
def hourOfTime (t : Int) : Nat := ((t % 86400) / 3600).toNat

/-- The `dE_kWh` sum of the rows falling in hour-of-day bucket `h`
(the value `groupby("hour")["dE_kWh"].sum()` assigns to a present key). -/
def sumdEAt (dff : List Reading) (h : Nat) : ℚ :=
  ((dff.filter fun r => hourOfTime r.time == h).map Reading.dE).sum

/-- Line 196: `dff.groupby("hour")["dE_kWh"].sum().reset_index()` — one bucket
per hour value actually present in `dff`, keys ascending, each carrying the
sum of that hour's `dE_kWh` cells. -/
def hourTable (dff : List Reading) : List (Nat × ℚ) :=
  ((List.range 24).filter fun h => dff.any fun r => hourOfTime r.time == h).map
    fun h => (h, sumdEAt dff h)

/-- `dff["PowerFactor"].mean()` (line 166): NaN (`none`) on an empty frame. -/
def pfMean (dff : List Reading) : Option ℚ :=
  if dff = [] then none
  else some ((dff.map Reading.powerFactor).sum / (dff.length : ℚ))

/-- The chart-ready payload of one tab (lines 144-203): the data each branch
feeds to its figures, stripped of pure styling. -/
inductive ViewPayload where
  /-- `tab-power`: (Time, ActivePower_kW) pairs and the window-rebased energy
  `Energy_kWh[i] - Energy_kWh[0]` pairs (lines 145-155). -/
  | power (activeSeries : List (Int × ℚ)) (rebased : List (Int × ℚ))
  /-- `tab-quality`: mean power factor for the gauge and the raw
  `Voltage_Deviation_%` samples for the histogram (lines 165-180). -/
  | quality (meanPF : Option ℚ) (devSamples : List ℚ)
  /-- `tab-cost`: bullet value `cost_bd`, its gauge upper bound
  `max(cost_bd*1.2, 50)`, and the hour-of-day energy table (lines 188-198). -/
  | cost (inRange : ℚ) (gaugeTop : ℚ) (byHour : List (Nat × ℚ))
  deriving DecidableEq

/-- Lines 144-203: the per-tab chart block.  `tab-power` reads
`dff["Energy_kWh"].iloc[0]` (line 153), which raises on an empty frame
(`none`); every tab string other than `tab-power` and `tab-quality` reaches
the trailing `else` (line 186) and produces the Cost charts. -/
def composeView (dff : List Reading) (cost_bd : ℚ) (tab : String) :
    Option ViewPayload :=
  if tab = "tab-power" then
    match dff with
    | [] => none
    | r :: rs =>
      some (ViewPayload.power ((r :: rs).map fun x => (x.time, x.activePower))
        ((r :: rs).map fun x => (x.time, x.energy - r.energy)))
  else if tab = "tab-quality" then
    some (ViewPayload.quality (pfMean dff) (dff.map Reading.voltageDev))
  else
    some (ViewPayload.cost cost_bd (max (cost_bd * (12 / 10)) 50)
      (hourTable dff))

/-- Discriminator: does a `composeView` result carry the Cost tab's charts? -/
def isCostPayload : Option ViewPayload → Bool
  | some (ViewPayload.cost _ _ _) => true
  | _ => false

/-- An exception escaping the callback: a failed `load_data()` (lines 33-38,
e.g. unreadable CSV) or an IndexError from `.iloc` on an empty frame. -/
inductive CycleError where
  | loadFailure
  | indexError
  deriving DecidableEq

/-- Lines 126-204, one callback invocation.  `df` is the module-level snapshot
(line 40), `src` the outcome `load_data()` would have this cycle, `(t0, t1)`
the slider range, `tab` the active tab, `n` the tick counter (an input the
body never reads), `live_on` the liveness switch.  The code has no
try/except, so any error value is the callback failing. -/
def update_dashboard (df : List Reading) (src : Except CycleError (List Reading))
    (t0 t1 : Int) (tab : String) (n : Nat) (live_on : Bool) :
    Except CycleError (KPISet × ViewPayload) :=
  match (if live_on then src else Except.ok df) with
  | Except.error e => Except.error e
  | Except.ok data =>
    let dff := slice_by_slider data t0 t1
    match aggregate dff with
    | none => Except.error CycleError.indexError
    | some k =>
      match composeView dff k.cost_bd tab with
      | none => Except.error CycleError.indexError
      | some payload => Except.ok (k, payload)

/-- The mutable module state across cycles.  `df` is the module-level variable
of line 40 — `update_dashboard` contains no assignment to it, which the step
function reflects.  `lastLoaded` is bookkeeping recording the value returned
by the most recent `load_data()` call (the initial read, or a live reload). -/
structure CtrlState where
  df : List Reading
  lastLoaded : List Reading
  deriving DecidableEq

/-- Module import: line 40 runs `df = load_data()`. -/
def initState (s : List Reading) : CtrlState := ⟨s, s⟩

/-- The observable trace of one cycle: the state afterwards, the series the
cycle computed over (`data` of line 127), and how many `load_data()` calls the
cycle made. -/
structure CycleTrace where
  next : CtrlState
  dataUsed : List Reading
  loads : Nat
  deriving DecidableEq

/-- Line 127, `data = load_data() if live_on else df`, viewed across cycles:
when live, `load_data()` runs once and its result (`src`) is used locally —
module-level `df` is NOT reassigned; when not live, `df` is reused and
`load_data()` is not called. -/
def cycleStep (st : CtrlState) (src : List Reading) (live : Bool) : CycleTrace :=
  if live then ⟨⟨st.df, src⟩, src, 1⟩ else ⟨st, st.df, 0⟩

/-- A sequence of cycles, each with the source content a reload would see and
the liveness flag at that tick. -/
def runCycles (st : CtrlState) : List (List Reading × Bool) → CtrlState
  | [] => st
  | ev :: evs => runCycles (cycleStep st ev.1 ev.2).next evs

/-- A concrete in-bounds sample row (hour-of-day 0). -/
def rowA : Reading :=
  { time := 0, activePower := 1, energy := 10, cost := 5, voltage := some 220
  , voltageDev := 0, powerFactor := 9 / 10, dutyCycle := 40, dE := 1 / 10 }

/-- A concrete sample row at epoch-seconds 10860 (hour-of-day 3). -/
def rowB : Reading :=
  { time := 3600 * 3 + 60, activePower := 2, energy := 11, cost := 6
  , voltage := some 230, voltageDev := 1, powerFactor := 8 / 10
  , dutyCycle := 50, dE := 2 / 10 }

/-- Row `i` of the Scenario-A series: 100 rows spanning one hour (timestamps
0 .. 3600) with `Energy_kWh` rising linearly from 10.0 to 12.5. -/
def scenARow (i : Nat) : Reading :=
  { time := ((i : Int) * 3600) / 99
  , activePower := 1
  , energy := 10 + (i : ℚ) * (5 / 198)
  , cost := (i : ℚ)
  , voltage := some 220
  , voltageDev := 0
  , powerFactor := 9 / 10
  , dutyCycle := 45
  , dE := 0 }

/-- The Scenario-A series itself. -/
def scenA : List Reading := (List.range 100).map scenARow

/-- Scenario A's filtered window: the slider set to the full range. -/
def scenAdff : List Reading := slice_by_slider scenA 0 3600

/-! ## Theorems -/

/-- Claim C2, counterexample.  The module-level `df` is never reassigned, so a
live-off cycle does NOT compute over the most recently loaded series: after a
live reload returns `[rowB]` (making `[rowB]` the most recently loaded series),
the next live-off cycle still computes over the startup snapshot `[rowA]`.
Moreover two consecutive live-off cycles invoke `load_data()` zero times, not
once. -/
theorem reload_policy_cex :
    (cycleStep (initState [rowA]) [rowB] true).next.lastLoaded = [rowB] ∧
    (cycleStep (cycleStep (initState [rowA]) [rowB] true).next [rowB]
        false).dataUsed = [rowA] ∧
    [rowA] ≠ [rowB] ∧
    (cycleStep (cycleStep (initState [rowA]) [rowB] true).next [rowB]
        false).loads +
      (cycleStep (cycleStep (cycleStep (initState [rowA]) [rowB] true).next
          [rowB] false).next [rowB] false).loads = 0 := by
  refine ⟨rfl, rfl, ?_, rfl⟩
  intro h
  have ht := congrArg (fun l => (l.headD rowA).time) h
  simp [rowA, rowB] at ht

/-- Claim C2, amended.  `load_data()` is invoked exactly when the liveness
flag is true (one call per live cycle, zero per live-off cycle); a live-off
cycle reuses the module-level snapshot `df` verbatim and leaves the state
untouched, and two consecutive live-off cycles perform zero loads.  (The
snapshot reused is the one from module import, since `df` is never
reassigned.) -/
theorem reload_policy (st : CtrlState) (src src2 : List Reading) :
    (∀ live, (cycleStep st src live).loads = if live then 1 else 0) ∧
    (cycleStep st src false).dataUsed = st.df ∧
    (cycleStep st src false).next = st ∧
    (cycleStep st src false).loads +
      (cycleStep (cycleStep st src false).next src2 false).loads = 0 := by
  refine ⟨fun live => ?_, rfl, rfl, rfl⟩
  cases live <;> rfl

/-- Claim C5, counterexample.  An unrecognized tab id does not fail with an
`UnknownView` error: it silently produces the Cost tab's payload (the
trailing `else` branch of line 186). -/
theorem unknown_view_cex :
    composeView [rowA] 0 "tab-bogus" = composeView [rowA] 0 "tab-cost" ∧
    isCostPayload (composeView [rowA] 0 "tab-bogus") = true := ⟨rfl, rfl⟩

/-- Claim C5, amended.  Every view selector other than the two recognized
non-default ids `tab-power` and `tab-quality` reaches the trailing `else`
branch and yields exactly the Cost view's payload — no error, no fallback to
a previously valid view. -/
theorem unknown_view_to_cost (dff : List Reading) (cost_bd : ℚ) (tab : String)
    (h1 : tab ≠ "tab-power") (h2 : tab ≠ "tab-quality") :
    composeView dff cost_bd tab = composeView dff cost_bd "tab-cost" ∧
    isCostPayload (composeView dff cost_bd tab) = true := by
  have hc : composeView dff cost_bd tab =
      some (ViewPayload.cost cost_bd (max (cost_bd * (12 / 10)) 50)
        (hourTable dff)) := by
    unfold composeView
    rw [if_neg h1, if_neg h2]
  exact ⟨by rw [hc]; rfl, by rw [hc]; rfl⟩

/-- Claim C5, witness for `unknown_view_to_cost` at the concrete selector
`tab-nonsense`. -/
theorem unknown_view_to_cost_wit :
    ("tab-nonsense" ≠ "tab-power") ∧ ("tab-nonsense" ≠ "tab-quality") ∧
    (composeView [rowB] 1 "tab-nonsense" = composeView [rowB] 1 "tab-cost" ∧
      isCostPayload (composeView [rowB] 1 "tab-nonsense") = true) := by
  refine ⟨by simp, by simp, unknown_view_to_cost [rowB] 1 "tab-nonsense"
    (by simp) (by simp)⟩

/-- Claim C6, counterexample.  A failing reload is not caught anywhere: with
the liveness flag on, the cycle's output is the load error itself — not the
prior KPISet/ViewPayload with a staleness mark. -/
theorem load_failure_cex :
    update_dashboard [rowA] (Except.error CycleError.loadFailure) 0 20000
      "tab-power" 3 true = Except.error CycleError.loadFailure := rfl

/-- Claim C6, amended.  `load_data` (lines 33-38) and `update_dashboard`
contain no exception handler, so whenever the liveness flag is true and the
reload fails, the failure propagates out of the cycle unchanged: the callback
errors, and no prior output or staleness flag is produced by the cycle. -/
theorem load_failure_propagates (df : List Reading) (t0 t1 : Int)
    (tab : String) (n : Nat) :
    update_dashboard df (Except.error CycleError.loadFailure) t0 t1 tab n
      true = Except.error CycleError.loadFailure := rfl

/-- Claim C8.  One update cycle is a pure function of the retained snapshot,
the cycle's source content, the slider range, the tab and the liveness flag:
the tick counter `n` (the only other input the callback receives — it has no
clock or hidden-state input) does not influence the output, so two cycles
with identical filtered data and view id produce identical payloads. -/
theorem update_dashboard_tick_independent (df : List Reading)
    (src : Except CycleError (List Reading)) (t0 t1 : Int) (tab : String)
    (n1 n2 : Nat) (live_on : Bool) :
    update_dashboard df src t0 t1 tab n1 live_on =
      update_dashboard df src t0 t1 tab n2 live_on := rfl

/-- Claim C10.  No cycle mutates the retained module-level snapshot: a single
step leaves `df` unchanged, any sequence of cycles leaves `df` unchanged, and
a live-off cycle run after an arbitrary history of cycles still computes over
exactly the series loaded at import.  (The Cost branch's hour column is added
to `dff`, the filtered copy produced by boolean-mask indexing on line 117,
never to `df`.) -/
theorem snapshot_frame (st : CtrlState) (srcLive src0 : List Reading)
    (live : Bool) (evs : List (List Reading × Bool)) :
    (cycleStep st srcLive live).next.df = st.df ∧
    (runCycles st evs).df = st.df ∧
    (cycleStep (runCycles (initState src0) evs) srcLive false).dataUsed =
      src0 := by
  have hstep : ∀ (s : CtrlState) (src : List Reading) (b : Bool),
      (cycleStep s src b).next.df = s.df := by
    intro s src b; cases b <;> rfl
  have hrun : ∀ (l : List (List Reading × Bool)) (s : CtrlState),
      (runCycles s l).df = s.df := by
    intro l
    induction l with
    | nil => intro s; rfl
    | cons ev rest ih =>
      intro s
      calc (runCycles s (ev :: rest)).df
          = (runCycles (cycleStep s ev.1 ev.2).next rest).df := rfl
        _ = (cycleStep s ev.1 ev.2).next.df := ih _
        _ = s.df := hstep s ev.1 ev.2
  refine ⟨hstep st srcLive live, hrun evs st, ?_⟩
  have hdata : (cycleStep (runCycles (initState src0) evs) srcLive
      false).dataUsed = (runCycles (initState src0) evs).df := rfl
  rw [hdata, hrun evs (initState src0)]
  rfl

/-- Claim C1, counterexample.  A window matching zero rows is not guarded:
`dff["Energy_kWh"].iloc[-1]` (line 131) raises IndexError, so the cycle fails
instead of returning all-undefined sentinel KPIs. -/
theorem empty_window_errors_cex :
    slice_by_slider [rowB] 0 50 = [] ∧
    update_dashboard [rowB] (Except.ok [rowB]) 0 50 "tab-power" 0 false =
      Except.error CycleError.indexError := ⟨rfl, rfl⟩

/-- Claim C1, amended.  Whenever the filtered series is empty, the
first/last-element accesses of lines 131-134 are reached unguarded and the
aggregation raises (the cycle errors out) — it never produces a sentinel
KPISet. -/
theorem empty_window_errors (df : List Reading)
    (src : Except CycleError (List Reading)) (t0 t1 : Int) (tab : String)
    (n : Nat) (h : slice_by_slider df t0 t1 = []) :
    update_dashboard df src t0 t1 tab n false =
      Except.error CycleError.indexError := by
  have h1 : update_dashboard df src t0 t1 tab n false =
      (match aggregate (slice_by_slider df t0 t1) with
       | none => Except.error CycleError.indexError
       | some k =>
         match composeView (slice_by_slider df t0 t1) k.cost_bd tab with
         | none => Except.error CycleError.indexError
         | some payload => Except.ok (k, payload)) := rfl
  rw [h1, h]
  rfl

/-- Claim C1, witness for `empty_window_errors`: the single-row series
`[rowB]` with the window `[0, 50]`, which matches no row. -/
theorem empty_window_errors_wit :
    slice_by_slider [rowB] 0 50 = [] ∧
    update_dashboard [rowB] (Except.ok []) 0 50 "tab-cost" 7 false =
      Except.error CycleError.indexError :=
  ⟨rfl, empty_window_errors [rowB] (Except.ok []) 0 50 "tab-cost" 7 rfl⟩

/-- Claim C7.  For a series sorted ascending by timestamp, the slider filter
returns a subsequence of the series (original order preserved, still sorted)
containing exactly the rows whose timestamp lies in `[t0, t1]`, both
endpoints inclusive; when the window covers every timestamp of the series,
the result is the entire series. -/
theorem slice_by_slider_spec (data : List Reading) (t0 t1 : Int)
    (hsorted : data.Pairwise fun a b => a.time ≤ b.time) :
    (slice_by_slider data t0 t1).Sublist data ∧
    ((slice_by_slider data t0 t1).Pairwise fun a b => a.time ≤ b.time) ∧
    (∀ r, r ∈ slice_by_slider data t0 t1 ↔
      r ∈ data ∧ t0 ≤ r.time ∧ r.time ≤ t1) ∧
    ((∀ r ∈ data, t0 ≤ r.time ∧ r.time ≤ t1) →
      slice_by_slider data t0 t1 = data) := by
  refine ⟨List.filter_sublist data,
    List.Pairwise.sublist (List.filter_sublist data) hsorted,
    fun r => ?_, fun hall => ?_⟩
  · simp [slice_by_slider, List.mem_filter, and_assoc]
  · apply List.filter_eq_self.mpr
    intro r hr
    simp [(hall r hr).1, (hall r hr).2]

/-- Claim C7, witness for `slice_by_slider_spec` on the sorted two-row series
`[rowA, rowB]` with the full-range window `[0, 20000]`. -/
theorem slice_by_slider_spec_wit :
    ([rowA, rowB].Pairwise fun a b => a.time ≤ b.time) ∧
    slice_by_slider [rowA, rowB] 0 20000 = [rowA, rowB] := by
  have hs : ([rowA, rowB].Pairwise fun a b => a.time ≤ b.time) := by
    simp [rowA, rowB]
  refine ⟨hs, (slice_by_slider_spec [rowA, rowB] 0 20000 hs).2.2.2 ?_⟩
  intro r hr
  fin_cases hr <;> norm_num [rowA, rowB]

/-- The NaN-skipping voltage mean of a one-row frame is that row's voltage
cell (present or missing). -/
theorem vmean_single (r : Reading) : vmean [r] = r.voltage := by
  cases hv : r.voltage with
  | none => simp [vmean, List.filterMap_cons, hv]
  | some v => simp [vmean, List.filterMap_cons, hv]

/-- Claim C9.  When the window collapses to one instant `t0 = t1 = t` and
matches exactly one row `r`, the KPIs come from that row alone: net energy 0,
net cost 0, mean voltage = that row's voltage cell, duty cycle = that row's
value; and in general the voltage KPI of any successful aggregation is the
arithmetic mean over the in-window rows whose voltage is present (missing
cells excluded, NaN when none is present). -/
theorem single_row_window_kpis (data : List Reading) (t : Int) (r : Reading)
    (h : slice_by_slider data t t = [r]) :
    aggregate (slice_by_slider data t t) =
      some { total_kwh := 0, cost_bd := 0, avg_volt := r.voltage
           , duty_now := r.dutyCycle } ∧
    (∀ (dff : List Reading) (k : KPISet), aggregate dff = some k →
      k.avg_volt =
        (if dff.filterMap Reading.voltage = [] then none
         else some ((dff.filterMap Reading.voltage).sum /
           ((dff.filterMap Reading.voltage).length : ℚ)))) := by
  constructor
  · rw [h]
    have ha : aggregate [r] =
        some { total_kwh := r.energy - r.energy, cost_bd := r.cost - r.cost
             , avg_volt := vmean [r], duty_now := r.dutyCycle } := rfl
    rw [ha, vmean_single, sub_self, sub_self]
  · intro dff k hk
    cases dff with
    | nil => simp [aggregate] at hk
    | cons a as =>
      simp only [aggregate, Option.some_inj] at hk
      subst hk
      rfl

/-- Claim C9, witness for `single_row_window_kpis`: the instant window
`[0, 0]` on `[rowA, rowB]` matches exactly `rowA`. -/
theorem single_row_window_kpis_wit :
    slice_by_slider [rowA, rowB] 0 0 = [rowA] ∧
    aggregate (slice_by_slider [rowA, rowB] 0 0) =
      some { total_kwh := 0, cost_bd := 0, avg_volt := rowA.voltage
           , duty_now := rowA.dutyCycle } :=
  ⟨rfl, (single_row_window_kpis [rowA, rowB] 0 rowA rfl).1⟩

/-- Every hour-of-day value is in `0 .. 23`. -/
theorem hourOfTime_lt (t : Int) : hourOfTime t < 24 := by
  unfold hourOfTime
  omega

/-- Splitting one row off an hour bucket's sum. -/
theorem sumdEAt_cons (r : Reading) (dff : List Reading) (h : Nat) :
    sumdEAt (r :: dff) h =
      (if hourOfTime r.time = h then r.dE else 0) + sumdEAt dff h := by
  by_cases hc : hourOfTime r.time = h
  · simp [sumdEAt, List.filter_cons, hc]
  · simp [sumdEAt, List.filter_cons, hc]

/-- An indicator sums to zero over a list avoiding its key. -/
theorem sum_indicator_zero {c : ℚ} (a : Nat) (l : List Nat) (ha : a ∉ l) :
    (l.map fun x => if a = x then c else 0).sum = 0 := by
  induction l with
  | nil => rfl
  | cons b l ih =>
    simp only [List.mem_cons, not_or] at ha
    rw [List.map_cons, List.sum_cons, if_neg ha.1, ih ha.2, add_zero]

/-- An indicator sums to its value over a duplicate-free list containing its
key. -/
theorem sum_indicator_single {c : ℚ} (a : Nat) (l : List Nat) (hnd : l.Nodup)
    (ha : a ∈ l) :
    (l.map fun x => if a = x then c else 0).sum = c := by
  induction l with
  | nil => cases ha
  | cons b l ih =>
    rcases List.mem_cons.mp ha with hab | hal
    · subst hab
      rw [List.map_cons, List.sum_cons, if_pos rfl,
        sum_indicator_zero a l (List.nodup_cons.mp hnd).1, add_zero]
    · have hab : a ≠ b := by
        rintro rfl
        exact (List.nodup_cons.mp hnd).1 hal
      rw [List.map_cons, List.sum_cons, if_neg hab,
        ih (List.nodup_cons.mp hnd).2 hal, zero_add]

/-- Summing the 24 hour buckets (present or not) recovers the total of the
`dE_kWh` column. -/
theorem sum_range24 (dff : List Reading) :
    ((List.range 24).map fun h => sumdEAt dff h).sum =
      (dff.map Reading.dE).sum := by
  induction dff with
  | nil => simp [sumdEAt]
  | cons r dff ih =>
    have hcons : ((List.range 24).map fun h => sumdEAt (r :: dff) h) =
        (List.range 24).map fun h =>
          (if hourOfTime r.time = h then r.dE else 0) + sumdEAt dff h :=
      List.map_congr_left fun h _ => sumdEAt_cons r dff h
    rw [hcons, List.sum_map_add,
      sum_indicator_single (hourOfTime r.time) (List.range 24)
        (List.nodup_range 24) (List.mem_range.mpr (hourOfTime_lt r.time)), ih]
    simp

/-- Dropping keys whose mapped value is zero does not change a sum. -/
theorem sum_filter_keys (l : List Nat) (p : Nat → Bool) (f : Nat → ℚ)
    (hzero : ∀ x ∈ l, p x = false → f x = 0) :
    ((l.filter p).map f).sum = (l.map f).sum := by
  induction l with
  | nil => rfl
  | cons a l ih =>
    have ihl := ih fun x hx => hzero x (List.mem_cons_of_mem a hx)
    cases hpa : p a with
    | true => simp [List.filter_cons, hpa, ihl]
    | false =>
      rw [List.filter_cons, if_neg (by simp [hpa]), ihl, List.map_cons,
        List.sum_cons, hzero a (List.mem_cons_self a l) hpa, zero_add]

/-- A bucket no in-window row falls into sums to zero. -/
theorem sumdEAt_absent (dff : List Reading) (h : Nat)
    (hno : (dff.any fun r => hourOfTime r.time == h) = false) :
    sumdEAt dff h = 0 := by
  unfold sumdEAt
  have hnil : dff.filter (fun r => hourOfTime r.time == h) = [] := by
    apply List.filter_eq_nil_iff.mpr
    intro r hr
    have := List.any_eq_false.mp hno r hr
    simpa using this
  rw [hnil]
  rfl

/-- Claim C4, counterexample.  `groupby("hour")` only produces keys for hours
present in the window: a window whose rows all fall in hour 3 yields a
one-bucket table, not a 24-bucket one. -/
theorem hour_table_not24_cex :
    (hourTable [rowB]).map Prod.fst = [3] ∧
    (hourTable [rowB]).length = 1 ∧ (hourTable [rowB]).length ≠ 24 := by
  refine ⟨rfl, rfl, ?_⟩
  intro h
  rw [show (hourTable [rowB]).length = 1 from rfl] at h
  cases h

/-- Claim C4, amended.  The CostView hour table has one bucket per distinct
hour-of-day present in the window — hence at most 24 buckets, each keyed in
`0 .. 23` and backed by at least one in-window row — the bucket values sum to
exactly the total of the in-window incremental energy deltas, and every
bucket is nonnegative whenever the in-window deltas are (the data-model
invariant for increments of a cumulative column). -/
theorem hour_table_spec (dff : List Reading)
    (hpos : ∀ r ∈ dff, 0 ≤ r.dE) :
    (hourTable dff).length ≤ 24 ∧
    (∀ p ∈ hourTable dff, p.1 < 24 ∧ ∃ r ∈ dff, hourOfTime r.time = p.1) ∧
    ((hourTable dff).map Prod.snd).sum = (dff.map Reading.dE).sum ∧
    (∀ p ∈ hourTable dff, 0 ≤ p.2) := by
  refine ⟨?_, ?_, ?_, ?_⟩
  · unfold hourTable
    rw [List.length_map]
    calc ((List.range 24).filter fun h =>
          dff.any fun r => hourOfTime r.time == h).length
        ≤ (List.range 24).length := List.length_filter_le _ _
      _ = 24 := List.length_range 24
  · intro p hp
    unfold hourTable at hp
    rcases List.mem_map.mp hp with ⟨h, hh, rfl⟩
    have hmem := List.mem_filter.mp hh
    refine ⟨List.mem_range.mp hmem.1, ?_⟩
    rcases List.any_eq_true.mp hmem.2 with ⟨r, hr, hbeq⟩
    exact ⟨r, hr, by simpa using hbeq⟩
  · unfold hourTable
    rw [List.map_map]
    have hcomp : (Prod.snd ∘ fun h => (h, sumdEAt dff h)) =
        fun h => sumdEAt dff h := rfl
    rw [hcomp,
      sum_filter_keys _ _ _ (fun h _ hf => sumdEAt_absent dff h hf),
      sum_range24]
  · intro p hp
    unfold hourTable at hp
    rcases List.mem_map.mp hp with ⟨h, _, rfl⟩
    show 0 ≤ sumdEAt dff h
    apply List.sum_nonneg
    intro x hx
    rcases List.mem_map.mp hx with ⟨r, hr, rfl⟩
    exact hpos r (List.mem_filter.mp hr).1

/-- Claim C4, witness for `hour_table_spec` on the one-row window `[rowB]`
(whose delta is nonnegative). -/
theorem hour_table_spec_wit :
    (hourTable [rowB]).length ≤ 24 ∧
    ((hourTable [rowB]).map Prod.snd).sum = ([rowB].map Reading.dE).sum := by
  have hpos : ∀ r ∈ [rowB], 0 ≤ r.dE := by
    intro r hr
    fin_cases hr
    norm_num [rowB]
  exact ⟨(hour_table_spec [rowB] hpos).1, (hour_table_spec [rowB] hpos).2.2.1⟩

/-- The net-energy KPI in terms of the filtered frame's first and last rows. -/
theorem aggregate_total_eq (dff : List Reading) (r0 rN : Reading)
    (h0 : dff.head? = some r0) (hN : dff.getLast? = some rN) :
    (aggregate dff).map KPISet.total_kwh = some (rN.energy - r0.energy) := by
  cases dff with
  | nil => cases h0
  | cons a as =>
    simp only [List.head?_cons, Option.some_inj] at h0
    subst h0
    have hlast : (a :: as).getLast (List.cons_ne_nil a as) = rN := by
      rw [List.getLast?_eq_getLast (a :: as) (List.cons_ne_nil a as)] at hN
      exact Option.some_inj.mp hN
    show some (((a :: as).getLast (List.cons_ne_nil a as)).energy - a.energy)
      = some (rN.energy - a.energy)
    rw [hlast]

/-- Claim C3.  For every non-empty filtered window the net-energy and
net-cost KPIs are last-minus-first over the in-window cumulative columns
(lines 131-132) — never a sum of deltas; and on the Scenario-A series
(100 rows spanning one hour, `Energy_kWh` rising 10.0 to 12.5) with the
slider at the full range, the filtered window is the whole series and the
net-energy KPI is exactly 2.5. -/
theorem net_kpis_last_minus_first :
    (∀ (r : Reading) (rs : List Reading),
      aggregate (r :: rs) =
        some { total_kwh :=
                 ((r :: rs).getLast (List.cons_ne_nil r rs)).energy - r.energy
             , cost_bd :=
                 ((r :: rs).getLast (List.cons_ne_nil r rs)).cost - r.cost
             , avg_volt := vmean (r :: rs)
             , duty_now :=
                 ((r :: rs).getLast (List.cons_ne_nil r rs)).dutyCycle }) ∧
    scenAdff = scenA ∧ scenA.length = 100 ∧
    (aggregate scenAdff).map KPISet.total_kwh = some (5 / 2) := by
  have hfull : scenAdff = scenA := by
    have hb : ∀ r ∈ scenA, 0 ≤ r.time ∧ r.time ≤ 3600 := by
      intro r hr
      rcases List.mem_map.mp hr with ⟨i, hi, rfl⟩
      have hi2 : i < 100 := List.mem_range.mp hi
      simp only [scenARow]
      omega
    apply List.filter_eq_self.mpr
    intro r hr
    simp [(hb r hr).1, (hb r hr).2]
  refine ⟨fun r rs => rfl, hfull, by simp [scenA], ?_⟩
  have h0 : scenAdff.head? = some (scenARow 0) := by rw [hfull]; rfl
  have hN : scenAdff.getLast? = some (scenARow 99) := by rw [hfull]; rfl
  rw [aggregate_total_eq scenAdff (scenARow 0) (scenARow 99) h0 hN]
  norm_num [scenARow]
